import Mathlib

/-
Verification development for the ED-System-Colonizer proxy server
(src/server.js).  The JavaScript code is shallowly embedded: JSON values
are modelled by the inductive JsVal, the DOM fragments consumed by
parseInaraSystemsHtml are modelled by the structures Cell and Html, and
the four Express request handlers with their retry loops are modelled as
fuel-indexed recursive functions over a stream of upstream call outcomes.
Machine numbers are modelled as Rat (the code performs no arithmetic on
them beyond parsing, so no floating-point rounding is observable in the
properties proved here), and thrown JavaScript exceptions are modelled
with Except / explicit error branches.
-/

namespace EDSys

/-- Model of a JavaScript (JSON-ish) runtime value.  vUndefined is the value
`undefined` (a missing object key reads as vUndefined); vNull is `null`. -/
inductive JsVal : Type where
  | vUndefined : JsVal
  | vNull : JsVal
  | vBool (b : Bool) : JsVal
  | vNum (q : Rat) : JsVal
  | vStr (s : String) : JsVal
  | vArr (elems : List JsVal) : JsVal
  | vObj (fields : List (String × JsVal)) : JsVal

/-- JavaScript truthiness.  Falsy values: undefined, null, false, 0, the
empty string.  (NaN is not representable with Rat; no operation modelled
here produces it.)  Arrays and objects are always truthy. -/
def truthy : JsVal → Bool
  | .vUndefined => false
  | .vNull => false
  | .vBool b => b
  | .vNum q => decide (q ≠ 0)
  | .vStr s => decide (s ≠ "")
  | .vArr _ => true
  | .vObj _ => true

/-- Model of the JavaScript `a || b` operator on values. -/
def jsOr (a b : JsVal) : JsVal := if truthy a then a else b

/-- Model of `s || d` for strings (the empty string is the only falsy
string). -/
def strOr (s d : String) : String := if s = "" then d else s

/-- Model of `x?.message || d` where x carries an optional message. -/
def optMsgOr : Option String → String → String
  | none, d => d
  | some m, d => strOr m d

/-- First binding of a key in an object field list (JS objects cannot
have duplicate keys, so an association list with first-match lookup is a
faithful model). -/
def lookupField : List (String × JsVal) → String → Option JsVal
  | [], _ => none
  | (k, v) :: rest, key => if k = key then some v else lookupField rest key

/-- Property access `v[key]` on a value that is not null/undefined:
objects yield the bound value or undefined; primitives and arrays yield
undefined for the keys read by this program. -/
def objField : JsVal → String → JsVal
  | .vObj fs, key => (lookupField fs key).getD .vUndefined
  | _, _ => .vUndefined

/-- Keys of an object value, in insertion order. -/
def jsKeys : JsVal → List String
  | .vObj fs => fs.map Prod.fst
  | _ => []

/-- String() conversion of a primitive, used for Error(x) when x is not a
string; nested arrays/objects inside an array are approximated (the EDSM
error marker is a string in every real response, so this branch is
unreachable in practice).  JS number formatting is approximated by
num/den printing. -/
def jsPrimStr : JsVal → String
  | .vStr s => s
  | .vBool b => cond b "true" "false"
  | .vNull => ""
  | .vUndefined => ""
  | .vNum q => if q.den = 1 then toString q.num else toString q.num ++ "/" ++ toString q.den
  | .vObj _ => "[object Object]"
  | .vArr _ => ""

/-- Message of `new Error(x)`: a string argument is kept verbatim,
anything else goes through String() conversion. -/
def jsErrorMessage : JsVal → String
  | .vStr s => s
  | .vBool b => cond b "true" "false"
  | .vNull => "null"
  | .vUndefined => "undefined"
  | .vNum q => if q.den = 1 then toString q.num else toString q.num ++ "/" ++ toString q.den
  | .vObj _ => "[object Object]"
  | .vArr l => String.intercalate "," (l.map jsPrimStr)

/- ------------------------------------------------------------------
   Schema normalizer: formatEdsmSystems (src/server.js lines 363-380)
   ------------------------------------------------------------------ -/

/-- The object literal built by formatEdsmSystems for one source record.
Each field holds the JS value stored under the corresponding key. -/
structure EdsmFormatted : Type where
  name : JsVal
  economy : JsVal
  security : JsVal
  allegiance : JsVal
  factions : JsVal
  stations : JsVal
  distance : JsVal
  direction : JsVal
  bodyCount : JsVal

/-- The JSON object produced by serializing one formatted record; all
nine keys are present in the literal (undefined-valued keys are dropped
by JSON serialization, which is why vUndefined values matter). -/
def EdsmFormatted.toJs (f : EdsmFormatted) : JsVal :=
  .vObj [("name", f.name), ("economy", f.economy), ("security", f.security),
         ("allegiance", f.allegiance), ("factions", f.factions), ("stations", f.stations),
         ("distance", f.distance), ("direction", f.direction), ("bodyCount", f.bodyCount)]

/-- Body of the formatEdsmSystems map callback for a record that is not
null/undefined (property access on such a record cannot throw):
  info = system.information || {};
  economy = info.economy || ""; security = info.security || "";
  allegiance = info.allegiance || "Independent";
  factions = info.faction ? 1 : 0; stations = 0;
  distance = system.distance || null; direction = null;
  bodyCount = system.bodyCount || 0. -/
def formatOneBody (sys : JsVal) : EdsmFormatted :=
  let info := jsOr (objField sys "information") (.vObj [])
  { name := objField sys "name"
    economy := jsOr (objField info "economy") (.vStr "")
    security := jsOr (objField info "security") (.vStr "")
    allegiance := jsOr (objField info "allegiance") (.vStr "Independent")
    factions := if truthy (objField info "faction") then .vNum 1 else .vNum 0
    stations := .vNum 0
    distance := jsOr (objField sys "distance") .vNull
    direction := .vNull
    bodyCount := jsOr (objField sys "bodyCount") (.vNum 0) }

/-- The map callback including the throwing case: reading
`system.information` on null/undefined raises a TypeError (the V8
message quotes the property name; the quotes are elided here). -/
def formatOne : JsVal → Except String EdsmFormatted
  | .vNull => .error "Cannot read properties of null (reading information)"
  | .vUndefined => .error "Cannot read properties of undefined (reading information)"
  | sys => .ok (formatOneBody sys)

/-- formatEdsmSystems: Array.prototype.map applied left to right, with
the first thrown exception propagating. -/
def formatEdsmSystems : List JsVal → Except String (List EdsmFormatted)
  | [] => .ok []
  | sys :: rest =>
    match formatOne sys with
    | .error e => .error e
    | .ok r =>
      match formatEdsmSystems rest with
      | .error e => .error e
      | .ok rs => .ok (r :: rs)

/- ------------------------------------------------------------------
   HTML table extractor: parseInaraSystemsHtml (src/server.js 299-360)
   ------------------------------------------------------------------ -/

/-- One td element of a body row, abstracted to the three observations
the extractor makes of it: its trimmed-before-use textContent (held here
untrimmed, trimming is applied at use sites as in the code), the
textContent of its first anchor descendant when one exists, and the
style attribute of its first .distancedirection descendant when both the
element and the attribute exist (absent element and absent attribute
both read as none, which the code treats identically). -/
structure Cell : Type where
  text : String
  anchorText : Option String
  directionStyle : Option String

/-- The parsed document, abstracted to the single observation the
extractor makes of it: the body rows (lists of td cells) of the first
table matching table.tablesortercollapsed, or none when no such table
exists. -/
structure Html : Type where
  table : Option (List (List Cell))

/-- Characters removed by String.prototype.trim, modelled with
Char.isWhitespace (JS trims a slightly larger Unicode set; none of the
properties below depend on the difference). -/
def trimChars (cs : List Char) : List Char :=
  ((cs.dropWhile Char.isWhitespace).reverse.dropWhile Char.isWhitespace).reverse

/-- Model of String.prototype.trim. -/
def jsTrim (s : String) : String := String.mk (trimChars s.data)

/-- Numeric value of a list of decimal digits. -/
def digitsToNat (ds : List Char) : Nat :=
  ds.foldl (fun a c => a * 10 + (c.toNat - 48)) 0

/-- Hexadecimal digit test, as accepted by parseInt with an 0x prefix. -/
def isHexDigitCh (c : Char) : Bool :=
  c.isDigit || (decide ('a' ≤ c) && decide (c ≤ 'f')) || (decide ('A' ≤ c) && decide (c ≤ 'F'))

/-- Value of one hexadecimal digit. -/
def hexVal (c : Char) : Nat :=
  if c.isDigit then c.toNat - 48
  else if decide ('a' ≤ c) && decide (c ≤ 'f') then c.toNat - 87
  else c.toNat - 55

/-- Numeric value of a list of hexadecimal digits. -/
def hexToNat (ds : List Char) : Nat :=
  ds.foldl (fun a c => a * 16 + hexVal c) 0

/-- Digit scan of parseInt after sign handling: an 0x/0X prefix switches
to hexadecimal; otherwise the longest leading run of decimal digits is
taken; no digits means NaN (none).  Trailing garbage is ignored, exactly
as parseInt does. -/
def parseIntCore (cs : List Char) : Option Nat :=
  match cs with
  | '0' :: 'x' :: rest =>
    let hs := rest.takeWhile isHexDigitCh
    if hs = [] then none else some (hexToNat hs)
  | '0' :: 'X' :: rest =>
    let hs := rest.takeWhile isHexDigitCh
    if hs = [] then none else some (hexToNat hs)
  | _ =>
    let ds := cs.takeWhile Char.isDigit
    if ds = [] then none else some (digitsToNat ds)

/-- Model of parseInt(s) with no radix argument: skip leading
whitespace, optional sign, then parseIntCore; none models NaN. -/
def jsParseInt (s : String) : Option Int :=
  match s.data.dropWhile Char.isWhitespace with
  | '-' :: rest => (parseIntCore rest).map (fun n => -(n : Int))
  | '+' :: rest => (parseIntCore rest).map (fun n => (n : Int))
  | cs => (parseIntCore cs).map (fun n => (n : Int))

/-- Attempt to match the regular expression (\d+\.\d+)\s*Ly at the head
of the character list, returning the integer and fractional digit runs
of the capture.  Maximal-munch digit and whitespace runs are equivalent
to the backtracking semantics of this particular pattern because a
shrunk run would leave a digit (resp. whitespace) where a dot, an L or
nothing may stand. -/
def matchDistanceAt (cs : List Char) : Option (List Char × List Char) :=
  if cs.takeWhile Char.isDigit = [] then none
  else
    match cs.dropWhile Char.isDigit with
    | '.' :: r2 =>
      if r2.takeWhile Char.isDigit = [] then none
      else
        match (r2.dropWhile Char.isDigit).dropWhile Char.isWhitespace with
        | 'L' :: 'y' :: _ => some (cs.takeWhile Char.isDigit, r2.takeWhile Char.isDigit)
        | _ => none
    | _ => none

/-- Leftmost match of (\d+\.\d+)\s*Ly in the string, as
String.prototype.match finds it: positions are tried left to right. -/
def findDistanceMatch : List Char → Option (List Char × List Char)
  | [] => none
  | c :: cs =>
    match matchDistanceAt (c :: cs) with
    | some p => some p
    | none => findDistanceMatch cs

/-- parseFloat applied to the matched decimal literal d1.d2, modelled as
the exact rational it denotes. -/
def decimalRat (d1 d2 : List Char) : Rat :=
  (digitsToNat d1 : Rat) + (digitsToNat d2 : Rat) / ((10 : Rat) ^ d2.length)

/-- Digits-and-deg) tail of the rotate pattern: after rotate( and the
optional minus sign, \d+ then the literal deg).  parseInt applied to the
capture -?\d+ always succeeds, reproduced here by the sign flag. -/
def rotateDigits (neg : Bool) (r1 : List Char) : Option Int :=
  let ds := r1.takeWhile Char.isDigit
  if ds = [] then none
  else
    match r1.dropWhile Char.isDigit with
    | 'd' :: 'e' :: 'g' :: ')' :: _ =>
      some (if neg then -(digitsToNat ds : Int) else (digitsToNat ds : Int))
    | _ => none

/-- Attempt to match rotate\((-?\d+)deg\) at the head of the list. -/
def matchRotateAt : List Char → Option Int
  | 'r' :: 'o' :: 't' :: 'a' :: 't' :: 'e' :: '(' :: '-' :: r1 => rotateDigits true r1
  | 'r' :: 'o' :: 't' :: 'a' :: 't' :: 'e' :: '(' :: r1 => rotateDigits false r1
  | _ => none

/-- Leftmost match of rotate\((-?\d+)deg\) in a style attribute. -/
def findRotate : List Char → Option Int
  | [] => none
  | c :: cs =>
    match matchRotateAt (c :: cs) with
    | some n => some n
    | none => findRotate cs

/-- The row record pushed by parseInaraSystemsHtml.  All eight fields of
the object literal are always defined: strings default to the empty
string, counts to 0, distance and direction to null (none). -/
structure ScrapedSystem : Type where
  name : String
  economy : String
  security : String
  allegiance : String
  factions : Int
  stations : Int
  distance : Option Rat
  direction : Option Int
deriving DecidableEq

/-- Placeholder cell for out-of-range access; extractRow is only applied
to rows with at least 7 cells, where indices 0..6 are in range, so the
placeholder is never observed from parseInaraSystemsHtml. -/
def defaultCell : Cell := { text := "", anchorText := none, directionStyle := none }

/-- Cell at an index (cells[i] with the ?. chains of the code). -/
def cellAt (cells : List Cell) (i : Nat) : Cell := cells.getD i defaultCell

/-- Field extraction for one row with at least 7 cells (the body of the
rows.forEach callback after the length guard):
  name = cells[0] anchor text trimmed, or "";
  economy/security/allegiance = trimmed cell text;
  factions/stations = parseInt(trimmed text) || 0;
  distance = first (\d+\.\d+)\s*Ly match parsed, else null;
  direction = rotate angle from the .distancedirection style, else null. -/
def extractRow (cells : List Cell) : ScrapedSystem :=
  let systemName := ((cellAt cells 0).anchorText.map jsTrim).getD ""
  let economy := jsTrim (cellAt cells 1).text
  let security := jsTrim (cellAt cells 2).text
  let allegiance := jsTrim (cellAt cells 3).text
  let factions := (jsParseInt (jsTrim (cellAt cells 4).text)).getD 0
  let stations := (jsParseInt (jsTrim (cellAt cells 5).text)).getD 0
  let distance := (findDistanceMatch (jsTrim (cellAt cells 6).text).data).map
    (fun p => decimalRat p.1 p.2)
  let direction :=
    match (cellAt cells 6).directionStyle with
    | none => none
    | some style => findRotate style.data
  { name := systemName, economy := economy, security := security, allegiance := allegiance,
    factions := factions, stations := stations, distance := distance, direction := direction }

/-- One iteration of the rows.forEach callback: rows with fewer than 7
cells are skipped by the early return. -/
def parseRow (cells : List Cell) : Option ScrapedSystem :=
  if cells.length < 7 then none else some (extractRow cells)

/-- parseInaraSystemsHtml: no matching table yields the empty list (with
a warning log); otherwise each body row goes through parseRow. -/
def parseInaraSystemsHtml (doc : Html) : List ScrapedSystem :=
  match doc.table with
  | none => []
  | some rows => rows.filterMap parseRow

/-- JSON object for one scraped row as res.json serializes it. -/
def scrapedToJs (s : ScrapedSystem) : JsVal :=
  .vObj [("name", .vStr s.name), ("economy", .vStr s.economy), ("security", .vStr s.security),
         ("allegiance", .vStr s.allegiance), ("factions", .vNum (s.factions : Rat)),
         ("stations", .vNum (s.stations : Rat)),
         ("distance", match s.distance with | none => .vNull | some q => .vNum q),
         ("direction", match s.direction with | none => .vNull | some n => .vNum (n : Rat))]

/- ------------------------------------------------------------------
   Endpoint dispatchers and retry loops (src/server.js 23-291)
   ------------------------------------------------------------------ -/

/-- Outcome of one axios.get call against the upstream: either the
request rejects (network error, timeout, non-2xx status) with the
message of the raised Error, or it resolves with a parsed payload. -/
inductive UpstreamResult (α : Type) : Type where
  | failure (msg : String) : UpstreamResult α
  | success (data : α) : UpstreamResult α

/-- HTTP response sent by a handler. -/
structure HttpResponse : Type where
  status : Nat
  body : JsVal

/-- Observable effect of one handler run: the response sent (none when
the handler falls off the end without calling res, which the
coordinates endpoint can do only on an impossible loop exit), the
number of upstream calls made, and the backoff waits performed in
order, in milliseconds. -/
structure HandlerResult : Type where
  response : Option HttpResponse
  calls : Nat
  waits : List Nat

/-- const maxAttempts = 3 (identical in all four handlers). -/
def maxAttempts : Nat := 3

/-- Delay inserted at the top of a loop iteration:
if (attempts > 0) wait attempts * 3000 ms. -/
def waitList (attempts : Nat) : List Nat :=
  if attempts > 0 then [attempts * 3000] else []

/-- Error body {error: e}. -/
def errBody (e : String) : JsVal := .vObj [("error", .vStr e)]

/-- 500 response {error: e, details: d}. -/
def err500 (e d : String) : HttpResponse :=
  { status := 500, body := .vObj [("error", .vStr e), ("details", .vStr d)] }

/-- 200 response with a JSON body. -/
def ok200 (b : JsVal) : HttpResponse := { status := 200, body := b }

/-- req.query parameter presence test: !x is true exactly for a missing
parameter (undefined) or the empty string (query values are strings). -/
def falsyParam : Option String → Bool
  | none => true
  | some s => s = ""

/-- Result of the body of one try block of the sphere-systems loop:
either a response is returned, or an exception with the given message
reaches the catch. -/
inductive AttemptStep : Type where
  | respond (r : HttpResponse) : AttemptStep
  | fail (msg : String) : AttemptStep

/-- One attempt of the sphere-systems handler (lines 111-158): a falsy
payload throws the empty-response error; a payload carrying
errorCode/error markers throws with data.error || the generic message;
a non-array or empty-array payload is answered 200 with []; otherwise
formatEdsmSystems runs (its TypeError, possible on a null/undefined
element, is caught by the same catch and so retried). -/
def sphereStep : UpstreamResult JsVal → AttemptStep
  | .failure msg => .fail msg
  | .success d =>
    if truthy d = false then .fail "Empty response received from EDSM sphere-systems"
    else if truthy (objField d "errorCode") || truthy (objField d "error") then
      .fail (jsErrorMessage (jsOr (objField d "error") (.vStr "EDSM API returned an error")))
    else
      match d with
      | .vArr elems =>
        if elems.length = 0 then .respond (ok200 (.vArr []))
        else
          match formatEdsmSystems elems with
          | .ok out => .respond (ok200 (.vArr (out.map EdsmFormatted.toJs)))
          | .error msg => .fail msg
      | _ => .respond (ok200 (.vArr []))

/-- Result of the body of one try block of the bodies loop: a response,
the empty-data branch (which increments attempts without touching
lastError and only throws on the last attempt), or a caught axios
error. -/
inductive BodiesStep : Type where
  | respond (r : HttpResponse) : BodiesStep
  | emptyData : BodiesStep
  | netError (msg : String) : BodiesStep

/-- One attempt of the bodies handler (lines 192-229): empty data is
!response.data || (Array.isArray(response.data) && length === 0);
anything else is passed through unmodified. -/
def bodiesStep : UpstreamResult JsVal → BodiesStep
  | .failure msg => .netError msg
  | .success d =>
    if truthy d = false then .emptyData
    else
      match d with
      | .vArr elems => if elems.length = 0 then .emptyData else .respond (ok200 d)
      | _ => .respond (ok200 d)

/-- Retry loop of the nearest-systems handler (lines 46-83).  The fuel
argument counts the iterations the while condition still allows
(fuel = maxAttempts - attempts at every call from the entry point);
fuel 0 is the loop exit, which responds 500 with
lastError?.message || the fallback text.  A successful attempt parses
the HTML and responds with the row array; a failure records its message
and retries. -/
def inaraLoop (up : Nat → UpstreamResult Html) :
    Nat → Nat → Option String → HandlerResult
  | 0, _, lastError =>
    { response := some (err500 "Failed to fetch data from Inara.cz"
        (optMsgOr lastError "All attempts failed")),
      calls := 0, waits := [] }
  | fuel + 1, attempts, _ =>
    match up attempts with
    | .success html =>
      { response := some (ok200 (.vArr ((parseInaraSystemsHtml html).map scrapedToJs))),
        calls := 1, waits := waitList attempts }
    | .failure msg =>
      let rest := inaraLoop up fuel (attempts + 1) (some msg)
      { response := rest.response, calls := rest.calls + 1,
        waits := waitList attempts ++ rest.waits }

/-- GET /api/inara/nearest-systems (lines 23-88).  The anyPopulation
parameter only selects which upstream URL is built and is not modelled;
the retry behaviour is identical for both values. -/
def inaraHandler (referenceSystem : Option String)
    (up : Nat → UpstreamResult Html) : HandlerResult :=
  if falsyParam referenceSystem then
    { response := some { status := 400, body := errBody "Reference system is required" },
      calls := 0, waits := [] }
  else inaraLoop up maxAttempts 0 none

/-- Retry loop of the sphere-systems handler (lines 111-159).  A
failing last attempt rethrows, so the outer catch answers 500 with that
message; fuel 0 is the unreachable fall-through throw of line 162. -/
def sphereLoop (up : Nat → UpstreamResult JsVal) : Nat → Nat → HandlerResult
  | 0, _ =>
    { response := some (err500 "Failed to fetch data from EDSM sphere-systems"
        "All request attempts failed"),
      calls := 0, waits := [] }
  | fuel + 1, attempts =>
    match sphereStep (up attempts) with
    | .respond r => { response := some r, calls := 1, waits := waitList attempts }
    | .fail msg =>
      if maxAttempts ≤ attempts + 1 then
        { response := some (err500 "Failed to fetch data from EDSM sphere-systems" msg),
          calls := 1, waits := waitList attempts }
      else
        let rest := sphereLoop up fuel (attempts + 1)
        { response := rest.response, calls := rest.calls + 1,
          waits := waitList attempts ++ rest.waits }

/-- GET /api/edsm/sphere-systems (lines 91-171).  radius and minRadius
only enter the upstream URL and are not modelled. -/
def sphereHandler (systemName : Option String)
    (up : Nat → UpstreamResult JsVal) : HandlerResult :=
  if falsyParam systemName then
    { response := some { status := 400, body := errBody "System name is required" },
      calls := 0, waits := [] }
  else sphereLoop up maxAttempts 0

/-- Retry loop of the bodies handler (lines 192-229).  The empty-data
branch increments attempts and continues without setting lastError,
except on the last attempt where it throws the fixed message (the catch
then records it and the loop exits).  Fuel 0 is the loop exit
responding 500 with lastError?.message || the fallback text. -/
def bodiesLoop (up : Nat → UpstreamResult JsVal) :
    Nat → Nat → Option String → HandlerResult
  | 0, _, lastError =>
    { response := some (err500 "Failed to fetch data from EDSM"
        (optMsgOr lastError "All attempts failed")),
      calls := 0, waits := [] }
  | fuel + 1, attempts, lastError =>
    match bodiesStep (up attempts) with
    | .respond r => { response := some r, calls := 1, waits := waitList attempts }
    | .netError msg =>
      let rest := bodiesLoop up fuel (attempts + 1) (some msg)
      { response := rest.response, calls := rest.calls + 1,
        waits := waitList attempts ++ rest.waits }
    | .emptyData =>
      if maxAttempts ≤ attempts + 1 then
        { response := some (err500 "Failed to fetch data from EDSM"
            "Empty response received from EDSM"),
          calls := 1, waits := waitList attempts }
      else
        let rest := bodiesLoop up fuel (attempts + 1) lastError
        { response := rest.response, calls := rest.calls + 1,
          waits := waitList attempts ++ rest.waits }

/-- GET /api/edsm/bodies (lines 174-241). -/
def bodiesHandler (systemName : Option String)
    (up : Nat → UpstreamResult JsVal) : HandlerResult :=
  if falsyParam systemName then
    { response := some { status := 400, body := errBody "System name is required" },
      calls := 0, waits := [] }
  else bodiesLoop up maxAttempts 0 none

/-- Retry loop of the system-coordinates handler (lines 261-286).  A
successful attempt returns response.data unmodified with no emptiness
check of any kind; a failing last attempt rethrows into the outer
catch.  Fuel 0 is the loop exit, after which the handler ends without
sending any response. -/
def systemLoop (up : Nat → UpstreamResult JsVal) : Nat → Nat → HandlerResult
  | 0, _ => { response := none, calls := 0, waits := [] }
  | fuel + 1, attempts =>
    match up attempts with
    | .success d => { response := some (ok200 d), calls := 1, waits := waitList attempts }
    | .failure msg =>
      if maxAttempts ≤ attempts + 1 then
        { response := some (err500 "Failed to fetch system data from EDSM" msg),
          calls := 1, waits := waitList attempts }
      else
        let rest := systemLoop up fuel (attempts + 1)
        { response := rest.response, calls := rest.calls + 1,
          waits := waitList attempts ++ rest.waits }

/-- GET /api/edsm/system (lines 244-291). -/
def systemHandler (systemName : Option String)
    (up : Nat → UpstreamResult JsVal) : HandlerResult :=
  if falsyParam systemName then
    { response := some { status := 400, body := errBody "System name is required" },
      calls := 0, waits := [] }
  else systemLoop up maxAttempts 0

/- ------------------------------------------------------------------
   Auxiliary definitions used by the claim statements
   ------------------------------------------------------------------ -/

/-- An upstream delivering r0, r1, r2 on the first, second and third
call.  The retry budget is 3, so every run of a handler is determined
by the first three outcomes; quantifying over such triples therefore
covers every upstream behaviour. -/
def mkUp3 {α : Type} (r0 r1 r2 : UpstreamResult α) : Nat → UpstreamResult α
  | 0 => r0
  | 1 => r1
  | _ => r2

/-- Message with which one sphere-systems attempt fails, none when the
attempt responds. -/
def sphereFailMsg (u : UpstreamResult JsVal) : Option String :=
  match sphereStep u with
  | .respond _ => none
  | .fail m => some m

/-- Message with which one bodies attempt fails (the empty-data branch
fails with the fixed empty-response message), none when the attempt
responds. -/
def bodiesFailMsg (u : UpstreamResult JsVal) : Option String :=
  match bodiesStep u with
  | .respond _ => none
  | .emptyData => some "Empty response received from EDSM"
  | .netError m => some m

/-- Wait schedule stated by the specification for a run of n attempts
whose first attempt has index a: no wait before attempt index 0, and a
wait of index * 3000 ms before every later attempt, i.e. (k-1) * 3000
before 1-based attempt k.  Stated independently of the loop models for
comparison with them. -/
def backoffSpec (a : Nat) : Nat → List Nat
  | 0 => []
  | n + 1 => (if a = 0 then [] else [a * 3000]) ++ backoffSpec (a + 1) n

/-- The allegiance value the source record supplies, as the code reads
it: the allegiance key of system.information || {}. -/
def allegianceValue (sys : JsVal) : JsVal :=
  objField (jsOr (objField sys "information") (.vObj [])) "allegiance"

/-- Formalization of the claim wording: the source record supplies no
allegiance value, meaning a missing key (which reads as undefined), an
explicit null, or the empty string. -/
def noAllegianceValue (sys : JsVal) : Prop :=
  allegianceValue sys = .vUndefined ∨ allegianceValue sys = .vNull ∨ allegianceValue sys = .vStr ""

/-- Canonical keys of a JSON-path normalized record. -/
def edsmKeys : List String :=
  ["name", "economy", "security", "allegiance", "factions", "stations",
   "distance", "direction", "bodyCount"]

/-- Canonical keys of a scraped-path normalized record. -/
def scrapedKeys : List String :=
  ["name", "economy", "security", "allegiance", "factions", "stations",
   "distance", "direction"]

/-- First character of a string after leading whitespace, i.e. the
position where parseInt looks for a sign. -/
def signChar (s : String) : Option Char :=
  (s.data.dropWhile Char.isWhitespace).head?

/- Concrete inputs used by counterexamples and witnesses. -/

/-- Record supplying the explicit allegiance "Independent". -/
def c1sys : JsVal :=
  .vObj [("name", .vStr "Sol"), ("information", .vObj [("allegiance", .vStr "Independent")])]

/-- A 7-cell row whose factions cell holds a negative count and whose
direction style holds an angle outside -180..180. -/
def c8cells : List Cell :=
  [{ text := "CexSys", anchorText := some "CexSys", directionStyle := none },
   { text := "Extraction", anchorText := none, directionStyle := none },
   { text := "Low", anchorText := none, directionStyle := none },
   { text := "Federation", anchorText := none, directionStyle := none },
   { text := "-5", anchorText := none, directionStyle := none },
   { text := "2", anchorText := none, directionStyle := none },
   { text := "10.00 Ly", anchorText := none,
     directionStyle := some "transform: rotate(-999deg);" }]

/-- A 7-cell row whose distance cell carries a whole-number distance. -/
def c10cells : List Cell :=
  [{ text := "Sol", anchorText := some "Sol", directionStyle := none },
   { text := "", anchorText := none, directionStyle := none },
   { text := "", anchorText := none, directionStyle := none },
   { text := "", anchorText := none, directionStyle := none },
   { text := "3", anchorText := none, directionStyle := none },
   { text := "1", anchorText := none, directionStyle := none },
   { text := "12 Ly", anchorText := none, directionStyle := none }]

/-- A row of 7 cells with unparsable count, distance and direction
fields. -/
def blankCells : List Cell := List.replicate 7 defaultCell

/- ==================================================================
   Theorems
   ================================================================== -/

/-- Claim C9 (confirmed): for each of the four endpoints, a missing or
empty system-name parameter is answered 400 with the handler-specific
error body, and zero upstream calls (and zero waits) are performed. -/
theorem missing_param_rejected :
    ∀ q : Option String, (q = none ∨ q = some "") →
      ∀ (upH : Nat → UpstreamResult Html) (upJ : Nat → UpstreamResult JsVal),
        inaraHandler q upH =
          { response := some { status := 400, body := errBody "Reference system is required" },
            calls := 0, waits := [] } ∧
        sphereHandler q upJ =
          { response := some { status := 400, body := errBody "System name is required" },
            calls := 0, waits := [] } ∧
        bodiesHandler q upJ =
          { response := some { status := 400, body := errBody "System name is required" },
            calls := 0, waits := [] } ∧
        systemHandler q upJ =
          { response := some { status := 400, body := errBody "System name is required" },
            calls := 0, waits := [] } := by
  rintro q (rfl | rfl) upH upJ <;> exact ⟨rfl, rfl, rfl, rfl⟩

/-- Witness for C9 at the concrete input q = none. -/
theorem missing_param_rejected_witness :
    inaraHandler none (fun _ => .failure "x") =
      { response := some { status := 400, body := errBody "Reference system is required" },
        calls := 0, waits := [] } ∧
    systemHandler none (fun _ => .failure "x") =
      { response := some { status := 400, body := errBody "System name is required" },
        calls := 0, waits := [] } :=
  ⟨(missing_param_rejected none (Or.inl rfl) (fun _ => .failure "x")
      (fun _ => .failure "x")).1,
   (missing_param_rejected none (Or.inl rfl) (fun _ => .failure "x")
      (fun _ => .failure "x")).2.2.2⟩

/-- Counterexample for C2: the system-coordinates endpoint does not
treat an empty upstream response as a retryable failure.  With the
upstream resolving to an empty payload on every call, the handler
answers 200 with that payload on the very first attempt, making no
retry. -/
theorem system_endpoint_empty_counterexample :
    systemHandler (some "Sol")
        (mkUp3 (.success (.vStr "")) (.success (.vStr "")) (.success (.vStr ""))) =
      { response := some (ok200 (.vStr "")), calls := 1, waits := [] } := rfl

/-- Claim C2 (corrected): the sphere-systems endpoint answers an
explicitly empty upstream result array with 200 and [] on the first
attempt, consuming no further attempts, whatever the later outcomes
would have been; the bodies endpoint treats empty data as retryable
(three empty payloads consume all three attempts and end in the 500
with the empty-response message, and an empty payload followed by a
good one is answered on the second attempt); the system-coordinates
endpoint, however, performs no emptiness check and answers 200 with
whatever payload the first successful attempt delivers. -/
theorem empty_result_policy_amended :
    (∀ r1 r2 : UpstreamResult JsVal,
      sphereHandler (some "Sol") (mkUp3 (.success (.vArr [])) r1 r2) =
        { response := some (ok200 (.vArr [])), calls := 1, waits := [] }) ∧
    (bodiesHandler (some "Sol")
        (mkUp3 (.success (.vArr [])) (.success (.vArr [])) (.success (.vArr []))) =
      { response := some (err500 "Failed to fetch data from EDSM"
          "Empty response received from EDSM"),
        calls := 3, waits := [3000, 6000] }) ∧
    (∀ (d : JsVal) (r2 : UpstreamResult JsVal),
      bodiesStep (.success d) = .respond (ok200 d) →
      bodiesHandler (some "Sol") (mkUp3 (.success (.vArr [])) (.success d) r2) =
        { response := some (ok200 d), calls := 2, waits := [3000] }) ∧
    (∀ (d : JsVal) (r1 r2 : UpstreamResult JsVal),
      systemHandler (some "Sol") (mkUp3 (.success d) r1 r2) =
        { response := some (ok200 d), calls := 1, waits := [] }) := by
  refine ⟨fun r1 r2 => rfl, rfl, ?_, fun d r1 r2 => rfl⟩
  intro d r2 h
  have h0 : bodiesStep (.success (.vArr [])) = .emptyData := rfl
  show bodiesLoop (mkUp3 (.success (.vArr [])) (.success d) r2) maxAttempts 0 none = _
  simp only [bodiesLoop, maxAttempts, mkUp3, h0, h, waitList]
  norm_num

/-- Witness for C2 discharging the hypothesis of the retry-then-respond
conjunct at a concrete non-empty payload. -/
theorem empty_result_policy_amended_witness :
    bodiesHandler (some "Sol")
        (mkUp3 (.success (.vArr [])) (.success (.vObj [("bodies", .vArr [])]))
          (.failure "x")) =
      { response := some (ok200 (.vObj [("bodies", .vArr [])])), calls := 2,
        waits := [3000] } :=
  empty_result_policy_amended.2.2.1 (.vObj [("bodies", .vArr [])]) (.failure "x") rfl

/-- Counterexample for C3: the details field does not always carry the
last underlying error message.  When every attempt of the
nearest-systems handler fails with an Error whose message is the empty
string, the 500 response carries the fallback text
"All attempts failed" (from lastError?.message || ...), which differs
from the last error message "". -/
theorem exhaustion_details_counterexample :
    inaraHandler (some "Sol") (mkUp3 (.failure "") (.failure "") (.failure "")) =
      { response := some (err500 "Failed to fetch data from Inara.cz" "All attempts failed"),
        calls := 3, waits := [3000, 6000] } ∧
    "All attempts failed" ≠ "" :=
  ⟨rfl, by decide⟩

/-- Claim C3 (corrected): on each of the four endpoints, when all three
attempts fail the loop makes exactly 3 upstream calls, never more, and
responds 500.  The details field carries the last underlying error
message verbatim on the sphere-systems and system-coordinates
endpoints; on the nearest-systems and bodies endpoints it carries
lastError?.message || "All attempts failed", i.e. the last message
unless that message is the empty string. -/
theorem retry_exhaustion_amended :
    (∀ m0 m1 m2 : String,
      inaraHandler (some "Sol") (mkUp3 (.failure m0) (.failure m1) (.failure m2)) =
        { response := some (err500 "Failed to fetch data from Inara.cz"
            (strOr m2 "All attempts failed")),
          calls := 3, waits := [3000, 6000] }) ∧
    (∀ (u0 u1 u2 : UpstreamResult JsVal) (m0 m1 m2 : String),
      sphereFailMsg u0 = some m0 → sphereFailMsg u1 = some m1 → sphereFailMsg u2 = some m2 →
      sphereHandler (some "Sol") (mkUp3 u0 u1 u2) =
        { response := some (err500 "Failed to fetch data from EDSM sphere-systems" m2),
          calls := 3, waits := [3000, 6000] }) ∧
    (∀ (u0 u1 u2 : UpstreamResult JsVal) (m0 m1 m2 : String),
      bodiesFailMsg u0 = some m0 → bodiesFailMsg u1 = some m1 → bodiesFailMsg u2 = some m2 →
      bodiesHandler (some "Sol") (mkUp3 u0 u1 u2) =
        { response := some (err500 "Failed to fetch data from EDSM"
            (strOr m2 "All attempts failed")),
          calls := 3, waits := [3000, 6000] }) ∧
    (∀ m0 m1 m2 : String,
      systemHandler (some "Sol") (mkUp3 (.failure m0) (.failure m1) (.failure m2)) =
        { response := some (err500 "Failed to fetch system data from EDSM" m2),
          calls := 3, waits := [3000, 6000] }) := by
  refine ⟨fun m0 m1 m2 => rfl, ?_, ?_, fun m0 m1 m2 => rfl⟩
  · intro u0 u1 u2 m0 m1 m2 h0 h1 h2
    have s0 : sphereStep u0 = .fail m0 := by
      unfold sphereFailMsg at h0
      rcases hs : sphereStep u0 with r | m <;> rw [hs] at h0 <;> simp at h0 ⊢
      exact h0
    have s1 : sphereStep u1 = .fail m1 := by
      unfold sphereFailMsg at h1
      rcases hs : sphereStep u1 with r | m <;> rw [hs] at h1 <;> simp at h1 ⊢
      exact h1
    have s2 : sphereStep u2 = .fail m2 := by
      unfold sphereFailMsg at h2
      rcases hs : sphereStep u2 with r | m <;> rw [hs] at h2 <;> simp at h2 ⊢
      exact h2
    show sphereLoop (mkUp3 u0 u1 u2) maxAttempts 0 = _
    simp only [sphereLoop, maxAttempts, mkUp3, s0, s1, s2, waitList]
    norm_num
  · intro u0 u1 u2 m0 m1 m2 h0 h1 h2
    show bodiesLoop (mkUp3 u0 u1 u2) maxAttempts 0 none = _
    have step : ∀ (u : UpstreamResult JsVal) (m : String), bodiesFailMsg u = some m →
        (bodiesStep u = .emptyData ∧ m = "Empty response received from EDSM") ∨
          bodiesStep u = .netError m := by
      intro u m h
      unfold bodiesFailMsg at h
      rcases hs : bodiesStep u with r | _ | mm <;> rw [hs] at h <;> simp at h
      · exact Or.inl ⟨rfl, h.symm⟩
      · exact Or.inr (by rw [h])
    rcases step u0 m0 h0 with ⟨hs0, hm0⟩ | hs0 <;>
      rcases step u1 m1 h1 with ⟨hs1, hm1⟩ | hs1 <;>
        rcases step u2 m2 h2 with ⟨hs2, hm2⟩ | hs2 <;>
          subst_vars <;>
          simp [bodiesLoop, maxAttempts, mkUp3, hs0, hs1, hs2, waitList, optMsgOr, strOr]

/-- Witness for C3 discharging the hypotheses of the sphere-systems and
bodies conjuncts at concrete all-failing upstreams. -/
theorem retry_exhaustion_amended_witness :
    sphereHandler (some "Sol") (mkUp3 (.failure "a") (.failure "b") (.failure "c")) =
      { response := some (err500 "Failed to fetch data from EDSM sphere-systems" "c"),
        calls := 3, waits := [3000, 6000] } ∧
    bodiesHandler (some "Sol") (mkUp3 (.failure "x") (.failure "y") (.failure "z")) =
      { response := some (err500 "Failed to fetch data from EDSM" "z"),
        calls := 3, waits := [3000, 6000] } :=
  ⟨retry_exhaustion_amended.2.1 (.failure "a") (.failure "b") (.failure "c")
      "a" "b" "c" rfl rfl rfl,
   retry_exhaustion_amended.2.2.1 (.failure "x") (.failure "y") (.failure "z")
      "x" "y" "z" rfl rfl rfl⟩

/-- Waits of the nearest-systems loop follow the backoff schedule. -/
theorem inaraLoop_waits (up : Nat → UpstreamResult Html) :
    ∀ (fuel attempts : Nat) (lastError : Option String),
      (inaraLoop up fuel attempts lastError).waits =
        backoffSpec attempts (inaraLoop up fuel attempts lastError).calls := by
  intro fuel
  induction fuel with
  | zero => intro a le; rfl
  | succ f ih =>
    intro a le
    rcases h : up a with m | html <;>
      simp [inaraLoop, h, backoffSpec, waitList, ih, Nat.pos_iff_ne_zero]

/-- Waits of the sphere-systems loop follow the backoff schedule. -/
theorem sphereLoop_waits (up : Nat → UpstreamResult JsVal) :
    ∀ (fuel attempts : Nat),
      (sphereLoop up fuel attempts).waits =
        backoffSpec attempts (sphereLoop up fuel attempts).calls := by
  intro fuel
  induction fuel with
  | zero => intro a; rfl
  | succ f ih =>
    intro a
    rcases h : sphereStep (up a) with r | m <;>
      simp [sphereLoop, h, backoffSpec, waitList, Nat.pos_iff_ne_zero]
    split <;> simp [backoffSpec, waitList, ih, Nat.pos_iff_ne_zero]

/-- Waits of the bodies loop follow the backoff schedule. -/
theorem bodiesLoop_waits (up : Nat → UpstreamResult JsVal) :
    ∀ (fuel attempts : Nat) (lastError : Option String),
      (bodiesLoop up fuel attempts lastError).waits =
        backoffSpec attempts (bodiesLoop up fuel attempts lastError).calls := by
  intro fuel
  induction fuel with
  | zero => intro a le; rfl
  | succ f ih =>
    intro a le
    rcases h : bodiesStep (up a) with r | _ | m
    · simp [bodiesLoop, h, backoffSpec, waitList, ih, Nat.pos_iff_ne_zero]
    · simp [bodiesLoop, h, backoffSpec, waitList, ih, Nat.pos_iff_ne_zero]
      split <;> simp [backoffSpec, waitList, ih, Nat.pos_iff_ne_zero]
    · simp [bodiesLoop, h, backoffSpec, waitList, ih, Nat.pos_iff_ne_zero]

/-- Waits of the system-coordinates loop follow the backoff schedule. -/
theorem systemLoop_waits (up : Nat → UpstreamResult JsVal) :
    ∀ (fuel attempts : Nat),
      (systemLoop up fuel attempts).waits =
        backoffSpec attempts (systemLoop up fuel attempts).calls := by
  intro fuel
  induction fuel with
  | zero => intro a; rfl
  | succ f ih =>
    intro a
    rcases h : up a with m | d <;>
      simp [systemLoop, h, backoffSpec, waitList, Nat.pos_iff_ne_zero]
    split <;> simp [backoffSpec, waitList, ih, Nat.pos_iff_ne_zero]

/-- Claim C4 (confirmed): on every endpoint and every upstream
behaviour, the retry loop inserts exactly the linear backoff schedule:
no wait before attempt 1, and (n-1) * 3000 ms before 1-based attempt n,
so a run of 1, 2 or 3 attempts performs waits [], [3000] and
[3000, 6000] respectively. -/
theorem linear_backoff_schedule :
    (∀ up : Nat → UpstreamResult Html,
      (inaraLoop up maxAttempts 0 none).waits =
        backoffSpec 0 (inaraLoop up maxAttempts 0 none).calls) ∧
    (∀ up : Nat → UpstreamResult JsVal,
      (sphereLoop up maxAttempts 0).waits =
        backoffSpec 0 (sphereLoop up maxAttempts 0).calls) ∧
    (∀ up : Nat → UpstreamResult JsVal,
      (bodiesLoop up maxAttempts 0 none).waits =
        backoffSpec 0 (bodiesLoop up maxAttempts 0 none).calls) ∧
    (∀ up : Nat → UpstreamResult JsVal,
      (systemLoop up maxAttempts 0).waits =
        backoffSpec 0 (systemLoop up maxAttempts 0).calls) ∧
    backoffSpec 0 1 = [] ∧ backoffSpec 0 2 = [3000] ∧ backoffSpec 0 3 = [3000, 6000] :=
  ⟨fun up => inaraLoop_waits up maxAttempts 0 none,
   fun up => sphereLoop_waits up maxAttempts 0,
   fun up => bodiesLoop_waits up maxAttempts 0 none,
   fun up => systemLoop_waits up maxAttempts 0,
   rfl, rfl, rfl⟩

/-- Counterexample for C1: the only-if direction of the claimed
biconditional fails.  The record c1sys supplies the explicit, non-null,
non-empty allegiance value "Independent", yet the normalized allegiance
equals "Independent", so the output being "Independent" does not imply
that the source supplied no allegiance value. -/
theorem allegiance_iff_counterexample :
    (formatOneBody c1sys).allegiance = .vStr "Independent" ∧ ¬ noAllegianceValue c1sys := by
  refine ⟨rfl, ?_⟩
  have h : allegianceValue c1sys = .vStr "Independent" := rfl
  simp [noAllegianceValue, h]

/-- Claim C1 (corrected): a record whose information key is absent
normalizes to economy "", security "", allegiance "Independent",
factions 0, stations 0, direction null; and the allegiance field equals
the supplied value whenever the source supplies a truthy allegiance (a
non-empty string being the realistic case), while any falsy supplied
value (missing key, null, empty string, false, 0) yields "Independent".
The only-if direction of the original claim is dropped: an explicitly
supplied "Independent" also produces "Independent". -/
theorem allegiance_default_amended :
    (∀ fs : List (String × JsVal), lookupField fs "information" = none →
      (formatOneBody (.vObj fs)).economy = .vStr "" ∧
      (formatOneBody (.vObj fs)).security = .vStr "" ∧
      (formatOneBody (.vObj fs)).allegiance = .vStr "Independent" ∧
      (formatOneBody (.vObj fs)).factions = .vNum 0 ∧
      (formatOneBody (.vObj fs)).stations = .vNum 0 ∧
      (formatOneBody (.vObj fs)).direction = .vNull) ∧
    (∀ sys : JsVal,
      (truthy (allegianceValue sys) = true →
        (formatOneBody sys).allegiance = allegianceValue sys) ∧
      (truthy (allegianceValue sys) = false →
        (formatOneBody sys).allegiance = .vStr "Independent")) := by
  constructor
  · intro fs h
    refine ⟨?_, ?_, ?_, ?_, rfl, rfl⟩ <;>
      simp [formatOneBody, objField, lookupField, jsOr, truthy, h]
  · intro sys
    have e : (formatOneBody sys).allegiance =
        jsOr (allegianceValue sys) (.vStr "Independent") := rfl
    constructor <;> intro h <;> rw [e] <;> simp [jsOr, h]

/-- Witness for C1: the default applies to a record with no information
block and to an empty record; the pass-through applies to c1sys. -/
theorem allegiance_default_amended_witness :
    (formatOneBody (.vObj [("name", .vStr "Sol")])).allegiance = .vStr "Independent" ∧
    (formatOneBody (.vObj [])).allegiance = .vStr "Independent" ∧
    (formatOneBody c1sys).allegiance = allegianceValue c1sys :=
  ⟨(allegiance_default_amended.1 [("name", .vStr "Sol")] rfl).2.2.1,
   (allegiance_default_amended.2 (.vObj [])).2 rfl,
   (allegiance_default_amended.2 c1sys).1 rfl⟩

/-- Counterexample for C6: a JSON-path record that does not supply a
name key yields a normalized record whose name field is undefined (and
its key is therefore dropped by JSON serialization), so not every
canonical field is defined regardless of which keys the source
supplies. -/
theorem normalized_name_undefined_counterexample :
    (formatOneBody (.vObj [])).name = .vUndefined := rfl

/-- Every truthy value is distinct from undefined. -/
theorem truthy_ne_vUndefined (x : JsVal) (h : truthy x = true) : x ≠ .vUndefined := by
  intro hx
  subst hx
  simp [truthy] at h

/-- jsOr never yields undefined when its default is not undefined. -/
theorem jsOr_ne_vUndefined (x d : JsVal) (hd : d ≠ .vUndefined) : jsOr x d ≠ .vUndefined := by
  unfold jsOr
  split
  · next ht => exact truthy_ne_vUndefined x ht
  · exact hd

/-- Claim C6 (corrected): every normalized record has all canonical
keys in its object literal, and every canonical field except name is
always defined.  On the JSON path the name field is passed through
exactly as supplied, so it is undefined when the source omits the key;
on the scraped path all eight fields are always defined. -/
theorem normalized_fields_amended :
    (∀ fs : List (String × JsVal),
      jsKeys (formatOneBody (.vObj fs)).toJs = edsmKeys ∧
      (formatOneBody (.vObj fs)).economy ≠ .vUndefined ∧
      (formatOneBody (.vObj fs)).security ≠ .vUndefined ∧
      (formatOneBody (.vObj fs)).allegiance ≠ .vUndefined ∧
      (formatOneBody (.vObj fs)).factions ≠ .vUndefined ∧
      (formatOneBody (.vObj fs)).stations ≠ .vUndefined ∧
      (formatOneBody (.vObj fs)).distance ≠ .vUndefined ∧
      (formatOneBody (.vObj fs)).direction ≠ .vUndefined ∧
      (formatOneBody (.vObj fs)).bodyCount ≠ .vUndefined ∧
      (formatOneBody (.vObj fs)).name = (lookupField fs "name").getD .vUndefined) ∧
    (∀ s : ScrapedSystem, jsKeys (scrapedToJs s) = scrapedKeys ∧
      ∀ k ∈ scrapedKeys, objField (scrapedToJs s) k ≠ .vUndefined) := by
  constructor
  · intro fs
    have hif : ∀ b : Bool, (if b then JsVal.vNum 1 else JsVal.vNum 0) ≠ .vUndefined := by
      intro b
      cases b <;> simp
    exact ⟨rfl,
      jsOr_ne_vUndefined _ _ (by simp),
      jsOr_ne_vUndefined _ _ (by simp),
      jsOr_ne_vUndefined _ _ (by simp),
      hif _,
      by simp [formatOneBody],
      jsOr_ne_vUndefined _ _ (by simp),
      by simp [formatOneBody],
      jsOr_ne_vUndefined _ _ (by simp),
      rfl⟩
  · intro s
    obtain ⟨n, e, sec, al, fa, st, di, dir⟩ := s
    refine ⟨rfl, ?_⟩
    intro k hk
    simp [scrapedKeys] at hk
    rcases hk with rfl | rfl | rfl | rfl | rfl | rfl | rfl | rfl
    · exact fun h => JsVal.noConfusion h
    · exact fun h => JsVal.noConfusion h
    · exact fun h => JsVal.noConfusion h
    · exact fun h => JsVal.noConfusion h
    · exact fun h => JsVal.noConfusion h
    · exact fun h => JsVal.noConfusion h
    · cases di <;> exact fun h => JsVal.noConfusion h
    · cases dir <;> exact fun h => JsVal.noConfusion h

/-- Witness for C6 discharging the key-membership hypothesis at the
concrete key "name" and a concrete scraped record. -/
theorem normalized_fields_amended_witness :
    objField (scrapedToJs (extractRow blankCells)) "name" ≠ .vUndefined ∧
    (formatOneBody (.vObj [])).economy ≠ .vUndefined :=
  ⟨(normalized_fields_amended.2 (extractRow blankCells)).2 "name" (by simp [scrapedKeys]),
   (normalized_fields_amended.1 []).2.1⟩

/-- Counterexample for C7: the normalizer is not total.  On an array
containing the degenerate element null, reading system.information
throws a TypeError, so formatEdsmSystems fails instead of returning a
record sequence. -/
theorem formatter_throws_on_null_counterexample :
    formatEdsmSystems [.vNull] =
      .error "Cannot read properties of null (reading information)" := rfl

/-- Claim C7 (corrected): on every input array whose elements are
neither null nor undefined, formatEdsmSystems cannot fail and returns
exactly the element-wise image of the record map, hence a sequence
one-to-one with and in the same order as the input, with malformed
object records yielding best-effort defaulted output rather than being
dropped.  Arrays containing null or undefined elements make it throw. -/
theorem formatter_total_amended :
    ∀ l : List JsVal, (∀ x ∈ l, x ≠ .vNull ∧ x ≠ .vUndefined) →
      formatEdsmSystems l = .ok (l.map formatOneBody) := by
  intro l
  induction l with
  | nil => intro h; rfl
  | cons x rest ih =>
    intro h
    have hx := h x (List.mem_cons_self x rest)
    have hfx : formatOne x = .ok (formatOneBody x) := by
      cases x
      · exact absurd rfl hx.2
      · exact absurd rfl hx.1
      all_goals rfl
    have hrest := ih (fun y hy => h y (List.mem_cons_of_mem x hy))
    simp only [formatEdsmSystems, hfx, hrest, List.map_cons]

/-- Witness for C7 at a concrete array holding one degenerate (but
non-null) record: the empty object. -/
theorem formatter_total_amended_witness :
    formatEdsmSystems [.vObj []] = .ok [formatOneBody (.vObj [])] :=
  formatter_total_amended [.vObj []]
    (by
      intro x hx
      simp at hx
      subst hx
      exact ⟨fun h => JsVal.noConfusion h, fun h => JsVal.noConfusion h⟩)

/-- filterMap over parseRow is the same as filtering out the short rows
and extracting from the rest, in order. -/
theorem filterMap_parseRow (rows : List (List Cell)) :
    rows.filterMap parseRow =
      (rows.filter (fun cells => 7 ≤ cells.length)).map extractRow := by
  induction rows with
  | nil => rfl
  | cons r rs ih =>
    by_cases h : r.length < 7
    · simp [List.filterMap_cons, List.filter_cons, parseRow, h, Nat.not_le.mpr h, ih]
    · simp [List.filterMap_cons, List.filter_cons, parseRow, h, Nat.not_lt.mp h, ih]

/-- Claim C5 (confirmed): rows with fewer than 7 cells are absent from
the extractor output, rows with 7 or more cells all appear in document
order (the output is exactly the in-order image of the sufficiently
long rows), unparsable faction/station counts default to 0, an
unmatched distance defaults to null, and a missing or unmatched
direction defaults to null. -/
theorem extractor_row_policy :
    (∀ doc : Html, parseInaraSystemsHtml doc =
      ((doc.table.getD []).filter (fun cells => 7 ≤ cells.length)).map extractRow) ∧
    (∀ cells : List Cell, cells.length < 7 → parseRow cells = none) ∧
    (∀ cells : List Cell, 7 ≤ cells.length → parseRow cells = some (extractRow cells)) ∧
    (∀ cells : List Cell, jsParseInt (jsTrim (cellAt cells 4).text) = none →
      (extractRow cells).factions = 0) ∧
    (∀ cells : List Cell, jsParseInt (jsTrim (cellAt cells 5).text) = none →
      (extractRow cells).stations = 0) ∧
    (∀ cells : List Cell, findDistanceMatch (jsTrim (cellAt cells 6).text).data = none →
      (extractRow cells).distance = none) ∧
    (∀ cells : List Cell, (cellAt cells 6).directionStyle = none →
      (extractRow cells).direction = none) ∧
    (∀ (cells : List Cell) (style : String),
      (cellAt cells 6).directionStyle = some style → findRotate style.data = none →
      (extractRow cells).direction = none) := by
  refine ⟨?_, ?_, ?_, ?_, ?_, ?_, ?_, ?_⟩
  · intro doc
    rcases doc with ⟨tb⟩
    cases tb with
    | none => rfl
    | some rows => exact filterMap_parseRow rows
  · intro cells h
    simp [parseRow, h]
  · intro cells h
    simp [parseRow, Nat.not_lt.mpr h]
  · intro cells h
    simp [extractRow, h]
  · intro cells h
    simp [extractRow, h]
  · intro cells h
    simp [extractRow, h]
  · intro cells h
    simp [extractRow, h]
  · intro cells style hs h
    simp [extractRow, hs, h]

/-- Witness for C5 at a concrete row of 7 blank cells, whose counts,
distance and direction are all unparsable. -/
theorem extractor_row_policy_witness :
    parseRow blankCells = some (extractRow blankCells) ∧
    (extractRow blankCells).factions = 0 ∧
    (extractRow blankCells).stations = 0 ∧
    (extractRow blankCells).distance = none ∧
    (extractRow blankCells).direction = none :=
  ⟨extractor_row_policy.2.2.1 blankCells (by decide),
   extractor_row_policy.2.2.2.1 blankCells rfl,
   extractor_row_policy.2.2.2.2.1 blankCells rfl,
   extractor_row_policy.2.2.2.2.2.1 blankCells rfl,
   extractor_row_policy.2.2.2.2.2.2.1 blankCells rfl⟩

/-- Counterexample for C8: a cell text carrying a negative count and a
style carrying an angle outside -180..180 pass straight through the
extractor, so the produced row has a negative faction count and a
direction outside the claimed range. -/
theorem scraped_row_range_counterexample :
    parseInaraSystemsHtml { table := some [c8cells] } =
      [{ name := "CexSys", economy := "Extraction", security := "Low",
         allegiance := "Federation", factions := -5, stations := 2,
         distance := some (decimalRat ['1', '0'] ['0', '0']),
         direction := some (-999) }] ∧
    ((-5 : Int) < 0 ∧ (-999 : Int) < -180) :=
  ⟨rfl, by decide⟩

/-- The head of the remainder of dropWhile is a member of the list. -/
theorem dropWhile_head_mem {α : Type} (p : α → Bool) :
    ∀ (l : List α) (x : α) (r : List α), l.dropWhile p = x :: r → x ∈ l := by
  intro l
  induction l with
  | nil =>
    intro x r h
    simp [List.dropWhile] at h
  | cons a t ih =>
    intro x r h
    by_cases hp : p a
    · rw [List.dropWhile_cons, if_pos hp] at h
      exact List.mem_cons_of_mem a (ih x r h)
    · rw [List.dropWhile_cons, if_neg hp] at h
      injection h with h1 h2
      subst h1
      exact List.mem_cons_self a t

/-- A successful distance match implies the scanned text contains a
dot. -/
theorem matchDistanceAt_dot_mem (cs : List Char) (pr : List Char × List Char)
    (h : matchDistanceAt cs = some pr) : '.' ∈ cs := by
  unfold matchDistanceAt at h
  split at h
  · exact absurd h (by simp)
  · split at h
    · next r2 heq => exact dropWhile_head_mem Char.isDigit cs '.' r2 heq
    · exact absurd h (by simp)

/-- A text with no dot never matches the distance pattern at any
position. -/
theorem findDistanceMatch_no_dot :
    ∀ cs : List Char, '.' ∉ cs → findDistanceMatch cs = none := by
  intro cs
  induction cs with
  | nil => intro h; rfl
  | cons c rest ih =>
    intro h
    have hm : matchDistanceAt (c :: rest) = none := by
      rcases hmm : matchDistanceAt (c :: rest) with _ | pr
      · rfl
      · exact absurd (matchDistanceAt_dot_mem _ _ hmm) h
    simp [findDistanceMatch, hm, ih (fun hx => h (List.mem_cons_of_mem c hx))]

/-- Claim C10 (confirmed): the extractor recognizes a distance only
from a decimal-point number followed by Ly.  Any distance cell whose
text has no dot, in particular a whole-number distance such as 12 Ly,
yields a null distance; the decimal form 12.34 Ly is recognized. -/
theorem distance_requires_decimal :
    (∀ cs : List Char, '.' ∉ cs → findDistanceMatch cs = none) ∧
    (∀ cells : List Cell, '.' ∉ (jsTrim (cellAt cells 6).text).data →
      (extractRow cells).distance = none) ∧
    findDistanceMatch ("12 Ly".data) = none ∧
    findDistanceMatch ("12.34 Ly".data) = some (['1', '2'], ['3', '4']) := by
  refine ⟨findDistanceMatch_no_dot, ?_, rfl, rfl⟩
  intro cells h
  simp [extractRow, findDistanceMatch_no_dot _ h]

/-- Witness for C10 at a concrete row whose distance cell reads
12 Ly. -/
theorem distance_requires_decimal_witness :
    (extractRow c10cells).distance = none :=
  distance_requires_decimal.2.1 c10cells (by decide)

/-- parseInt never returns a negative value when the scanned text does
not start (after whitespace) with a minus sign; an unparsable text
defaults to 0 through the || 0 guard. -/
theorem jsParseInt_nonneg (s : String) (h : signChar s ≠ some '-') :
    0 ≤ (jsParseInt s).getD 0 := by
  unfold jsParseInt
  split
  · next rest heq =>
    refine absurd ?_ h
    unfold signChar
    rw [heq]
    rfl
  · next rest heq =>
    rcases hp : parseIntCore rest with _ | n <;> simp [hp, Int.natCast_nonneg]
  · next h1 h2 =>
    rcases hp : parseIntCore (s.data.dropWhile Char.isWhitespace) with _ | n <;>
      simp [hp, Int.natCast_nonneg]

/-- Claim C8 (corrected): the faction and station counts of a produced
row are integers that are non-negative whenever the corresponding cell
text does not begin with a minus sign (in particular they default to 0
on unparsable text), and the direction is either null or an integer.
The original non-negativity and -180..180 range claims fail: a negative
count in the cell text and an out-of-range rotate angle both pass
through unclamped. -/
theorem scraped_row_ranges_amended :
    ∀ cells : List Cell,
      (signChar (jsTrim (cellAt cells 4).text) ≠ some '-' →
        0 ≤ (extractRow cells).factions) ∧
      (signChar (jsTrim (cellAt cells 5).text) ≠ some '-' →
        0 ≤ (extractRow cells).stations) ∧
      ((extractRow cells).direction = none ∨
        ∃ n : Int, (extractRow cells).direction = some n) := by
  intro cells
  refine ⟨fun h => ?_, fun h => ?_, ?_⟩
  · show (0 : Int) ≤ (jsParseInt (jsTrim (cellAt cells 4).text)).getD 0
    exact jsParseInt_nonneg _ h
  · show (0 : Int) ≤ (jsParseInt (jsTrim (cellAt cells 5).text)).getD 0
    exact jsParseInt_nonneg _ h
  · rcases hd : (extractRow cells).direction with _ | n
    · exact Or.inl rfl
    · exact Or.inr ⟨n, rfl⟩

/-- Witness for C8 at the blank row: no sign characters, counts 0. -/
theorem scraped_row_ranges_amended_witness :
    0 ≤ (extractRow blankCells).factions ∧ 0 ≤ (extractRow blankCells).stations :=
  ⟨(scraped_row_ranges_amended blankCells).1 (by decide),
   (scraped_row_ranges_amended blankCells).2.1 (by decide)⟩

end EDSys
